import Mathlib

/-!
Shallow embedding of the fraud-detection dashboard front end
(components Dashboard, TransactionMap, HeatMap, AlertPanel and the api
service).  JavaScript numbers are modelled as rationals; the few places
where a coordinate can be missing, NaN or non-numeric are modelled with
an explicit JSVal type.  State updates of the React components are
modelled as pure functions on an explicit state record.
-/

namespace FraudDashboard

/-- Model of a JavaScript value stored in a coordinate field: a finite
number, the number NaN, or a value of some non-number type (string,
undefined, ...).  In JavaScript `typeof x` is the string "number" for
both finite numbers and NaN. -/
inductive JSVal where
  | num (q : ℚ)
  | nan
  | nonNumber
  deriving DecidableEq, Repr

/-- In JavaScript, `typeof x` equals "number" for finite numbers and for NaN. -/
def JSVal.isNumberType : JSVal → Bool
  | .num _ => true
  | .nan => true
  | .nonNumber => false

/-- Result of the JavaScript `isNaN` test on a value already known to be of
number type. -/
def JSVal.isNaNVal : JSVal → Bool
  | .nan => true
  | _ => false

/-- Geolocation record of a transaction (TransactionMap reads
`location.lat` and `location.lng`; they may hold NaN or non-numeric data). -/
structure Location where
  lat : JSVal
  lng : JSVal
  city : String
  country : String
  deriving DecidableEq, Repr

/-- A TransactionEvent as delivered on the `transaction_update` channel or
inside the dashboard-data response. -/
structure Transaction where
  transaction_id : String
  timestamp : String
  amount : ℚ
  location : Option Location
  risk_score : ℚ
  action : String
  merchant : Option String
  flags : List String
  deriving DecidableEq, Repr

/-- An AlertEntry as constructed by the Dashboard `transaction_update`
handler: `id` is `Date.now()` (milliseconds), `type` is the transaction's
action string. -/
structure Alert where
  id : ℤ
  timestamp : String
  message : String
  type : String
  transaction_id : String
  deriving DecidableEq, Repr

/-- The `fraud_stats` object of the dashboard data. -/
structure FraudStats where
  total_transactions : ℕ
  flagged_transactions : ℕ
  blocked_transactions : ℕ
  deriving DecidableEq, Repr

/-- The dashboard-data payload: bounded transaction history plus statistics. -/
structure DashboardData where
  recent_transactions : List Transaction
  fraud_stats : FraudStats
  deriving DecidableEq, Repr

/-- The Dashboard component's state: `dashboardData` (from useState) and the
alert list (from useState). -/
structure DashboardState where
  dashboardData : DashboardData
  alerts : List Alert
  deriving DecidableEq, Repr

/-- Initial Dashboard state: empty history, zero statistics, no alerts. -/
def initialDashboardState : DashboardState :=
  { dashboardData :=
      { recent_transactions := []
        fraud_stats :=
          { total_transactions := 0
            flagged_transactions := 0
            blocked_transactions := 0 } }
    alerts := [] }

/-- The alert policy of the `transaction_update` handler:
`transaction.action === 'block' || transaction.risk_score > 0.7`. -/
def alertPolicy (t : Transaction) : Prop :=
  t.action = "block" ∨ t.risk_score > 7/10

instance (t : Transaction) : Decidable (alertPolicy t) := by
  unfold alertPolicy; infer_instance

/-- The alert object built by the handler.  `now` is the value of
`Date.now()` at processing time; the ISO timestamp string and the rendered
message are built from the same clock and the transaction fields. -/
def mkAlert (now : ℤ) (t : Transaction) : Alert :=
  { id := now
    timestamp := toString now
    message :=
      t.action.toUpper ++ ": Transaction " ++ t.transaction_id ++ " - $"
        ++ toString t.amount ++ " - Risk Score: "
        ++ toString (t.risk_score * 100) ++ "%"
    type := t.action
    transaction_id := t.transaction_id }

/-- The `transaction_update` handler: prepend the transaction to the
history truncated via `slice(0, 49)`, and, when the alert policy holds,
prepend a new alert to the alert list truncated via `slice(0, 19)`. -/
def handleTransactionUpdate (now : ℤ) (st : DashboardState)
    (t : Transaction) : DashboardState :=
  let dd :=
    { st.dashboardData with
        recent_transactions := t :: st.dashboardData.recent_transactions.take 49 }
  if alertPolicy t then
    { dashboardData := dd
      alerts := mkAlert now t :: st.alerts.take 19 }
  else
    { dashboardData := dd, alerts := st.alerts }

/-- loadDashboardData (full refresh): `setDashboardData(data)` replaces the
whole dashboard data with the backend's response; the alert list is not
touched. -/
def loadDashboardData (st : DashboardState) (data : DashboardData) :
    DashboardState :=
  { st with dashboardData := data }

/-- The onClearAlert callback: `prev.filter(alert => alert.id !== id)`. -/
def dismissAlert (alerts : List Alert) (i : ℤ) : List Alert :=
  alerts.filter (fun a => a.id ≠ i)

/-- One observable operation on the Dashboard state: a live
`transaction_update` event (with its `Date.now()` clock value), a full
refresh response, or a user dismissal of an alert id. -/
inductive DashOp where
  | live (now : ℤ) (t : Transaction)
  | refresh (data : DashboardData)
  | dismiss (i : ℤ)
  deriving Repr

/-- Apply one operation to the Dashboard state. -/
def dashStep (st : DashboardState) : DashOp → DashboardState
  | .live now t => handleTransactionUpdate now st t
  | .refresh data => loadDashboardData st data
  | .dismiss i => { st with alerts := dismissAlert st.alerts i }

/-- Run a sequence of operations from a starting state. -/
def dashRun (st : DashboardState) (ops : List DashOp) : DashboardState :=
  ops.foldl dashStep st

/-- calculateFraudRate's rounding: JavaScript `x.toFixed(1)` rounds to the
nearest tenth, choosing the larger candidate on a tie. -/
def jsToFixed1 (x : ℚ) : ℚ :=
  (round (x * 10) : ℤ) / 10

/-- calculateFraudRate: 0 when `total_transactions === 0`, otherwise
`(((flagged + blocked) / total) * 100).toFixed(1)`. -/
def calculateFraudRate (s : FraudStats) : ℚ :=
  if s.total_transactions = 0 then 0
  else jsToFixed1 ((((s.flagged_transactions : ℚ) + s.blocked_transactions) /
    s.total_transactions) * 100)

/-- A HotspotAggregate as returned by GET /api/heat-map-data.  The
grouping key carries the coordinates; `avg_risk_score` is a number. -/
structure Hotspot where
  lat : JSVal
  lng : JSVal
  city : String
  country : String
  fraud_count : ℕ
  avg_risk_score : ℚ
  deriving DecidableEq, Repr

/-- JavaScript `x || d` on a number `x`: the number 0 is falsy, so the
default is taken exactly when `x` is 0 (NaN, also falsy, is outside this
rational model). -/
def jsOrQ (x d : ℚ) : ℚ :=
  if x = 0 then d else x

/-- Heat-point intensity of HeatMapLayer:
`Math.min(point.avg_risk_score || 0.5, 1.0)`. -/
def heatIntensity (p : Hotspot) : ℚ :=
  min (jsOrQ p.avg_risk_score (1/2)) 1

/-- Heat-point radius of HeatMapLayer: `Math.max(intensity * 50, 10)`. -/
def heatRadius (intensity : ℚ) : ℚ :=
  max (intensity * 50) 10

/-- getHeatColor of the HeatMap component: a five-bucket threshold ladder
on the intensity. -/
def getHeatColor (intensity : ℚ) : String :=
  if intensity ≥ 8/10 then "#FF0000"
  else if intensity ≥ 6/10 then "#FF4500"
  else if intensity ≥ 4/10 then "#FF8C00"
  else if intensity ≥ 2/10 then "#FFD700"
  else "#FFFF00"

/-- getRiskColor of the TransactionMap component: a four-bucket threshold
ladder on the risk score. -/
def getRiskColor (riskScore : ℚ) : String :=
  if riskScore ≥ 8/10 then "#F44336"
  else if riskScore ≥ 5/10 then "#FF9800"
  else if riskScore ≥ 3/10 then "#FFC107"
  else "#4CAF50"

/-- The coordinate test of TransactionMap's filter on one transaction:
`t.location && typeof lat === 'number' && typeof lng === 'number' &&
!isNaN(lat) && !isNaN(lng)`. -/
def hasValidCoordinates (t : Transaction) : Bool :=
  match t.location with
  | none => false
  | some loc =>
      loc.lat.isNumberType && loc.lng.isNumberType &&
        !loc.lat.isNaNVal && !loc.lng.isNaNVal

/-- validTransactions of TransactionMap: the input list filtered to the
transactions with numeric, non-NaN coordinates. -/
def validTransactions (ts : List Transaction) : List Transaction :=
  ts.filter hasValidCoordinates

/-- getAlertIcon of AlertPanel: icon per stored alert `type`, with a
default bucket for anything that is neither "block" nor "flag". -/
def getAlertIcon (ty : String) : String :=
  if ty = "block" then "🚫"
  else if ty = "flag" then "⚠️"
  else "🔔"

/-- The three classification buckets of an AlertEntry, as distinguished
by AlertPanel's getAlertIcon switch: "block", "flag", and the default
(other) bucket. -/
inductive AlertClass where
  | block
  | flag
  | other
  deriving DecidableEq, Repr

/-- Classification of a stored alert `type` string into the three buckets
of getAlertIcon's case analysis. -/
def classifyAlertType (ty : String) : AlertClass :=
  if ty = "block" then .block
  else if ty = "flag" then .flag
  else .other

/-- A concrete blocked transaction, used as a test input. -/
def blockTransaction : Transaction :=
  { transaction_id := "TX100"
    timestamp := "2024-01-01T00:00:00Z"
    amount := 250
    location := some { lat := .num 40, lng := .num (-74), city := "New York", country := "US" }
    risk_score := 9/10
    action := "block"
    merchant := some "ACME"
    flags := ["velocity"] }

/-- A concrete approved low-risk transaction, used as a test input. -/
def approveTransaction : Transaction :=
  { transaction_id := "TX200"
    timestamp := "2024-01-01T00:01:00Z"
    amount := 12
    location := some { lat := .num 51, lng := .num 0, city := "London", country := "UK" }
    risk_score := 1/10
    action := "approve"
    merchant := none
    flags := [] }

/-- A concrete approved high-risk transaction (risk above 0.7), used as a
test input. -/
def approveHighRiskTransaction : Transaction :=
  { approveTransaction with transaction_id := "TX300", risk_score := 8/10 }

/-- A full-refresh payload whose record list has 51 entries. -/
def bigRefreshData : DashboardData :=
  { recent_transactions := List.replicate 51 approveTransaction
    fraud_stats :=
      { total_transactions := 51
        flagged_transactions := 0
        blocked_transactions := 0 } }

/-- C1: for every incoming TransactionEvent on the live channel, exactly one
AlertEntry is created (prepended to the truncated previous list) when the
event's action is "block" or its risk score exceeds 0.7, and the alert list
is left unchanged otherwise. -/
theorem alert_created_iff_policy (now : ℤ) (st : DashboardState)
    (t : Transaction) :
    (alertPolicy t →
      (handleTransactionUpdate now st t).alerts
        = mkAlert now t :: st.alerts.take 19) ∧
    (¬ alertPolicy t →
      (handleTransactionUpdate now st t).alerts = st.alerts) := by
  constructor <;> intro h <;> simp [handleTransactionUpdate, h]

/-- Witness for alert_created_iff_policy: a blocked transaction on the
initial state yields exactly one alert, a low-risk approved transaction
yields none. -/
theorem alert_created_iff_policy_witness :
    (handleTransactionUpdate 1000 initialDashboardState blockTransaction).alerts
        = [mkAlert 1000 blockTransaction] ∧
    (handleTransactionUpdate 1000 initialDashboardState approveTransaction).alerts
        = [] := by
  constructor
  · have h := (alert_created_iff_policy 1000 initialDashboardState
      blockTransaction).1 (Or.inl rfl)
    simpa [initialDashboardState] using h
  · have h := (alert_created_iff_policy 1000 initialDashboardState
      approveTransaction).2 (by
        intro hp
        rcases hp with hp | hp
        · exact absurd hp (by decide)
        · norm_num [approveTransaction] at hp)
    simpa [initialDashboardState] using h

/-- C2 counterexample: a full refresh whose backend response holds 51
records leaves the transaction history at length 51, violating the claimed
bound of 50. -/
theorem history_cap_refresh_cex :
    ¬ ((dashRun initialDashboardState
        [DashOp.refresh bigRefreshData]).dashboardData.recent_transactions.length
      ≤ 50) := by
  simp [dashRun, dashStep, loadDashboardData, bigRefreshData]

/-- C2 amended: after every live-event prepend the history length is at
most 50, whatever the previous state; a full refresh replaces the history
with exactly the backend's record list, without truncation, so the bound
holds after a refresh only when the backend returns at most 50 records. -/
theorem history_prepend_bounded_refresh_exact :
    (∀ (now : ℤ) (st : DashboardState) (t : Transaction),
      (handleTransactionUpdate now st t).dashboardData.recent_transactions.length
        ≤ 50) ∧
    (∀ (st : DashboardState) (data : DashboardData),
      (loadDashboardData st data).dashboardData.recent_transactions
        = data.recent_transactions) := by
  constructor
  · intro now st t
    by_cases h : alertPolicy t <;>
      simp [handleTransactionUpdate, h, List.length_take]
  · intro st data
    rfl

/-- Taking `k` from an appended list is unchanged when the right part was
already truncated to `k`. -/
theorem take_append_take_eq {α : Type} (l m : List α) (k : ℕ) :
    (l ++ m.take k).take k = (l ++ m).take k := by
  rw [List.take_append_eq_append_take, List.take_append_eq_append_take,
    List.take_take]
  have hmin : (k - l.length) ⊓ k = k - l.length :=
    Nat.min_eq_left (Nat.sub_le _ _)
  rw [hmin]

/-- Folding a run of alert-triggering live events over any state whose
alert list is within the cap leaves exactly the 20 most recent alerts
(new ones first, then the survivors of the old list). -/
theorem dashRun_live_alerts (evs : List (ℤ × Transaction))
    (hpol : ∀ p ∈ evs, alertPolicy p.2) :
    ∀ st : DashboardState, st.alerts.length ≤ 20 →
      (dashRun st (evs.map fun p => DashOp.live p.1 p.2)).alerts
        = ((evs.map fun p => mkAlert p.1 p.2).reverse ++ st.alerts).take 20 := by
  induction evs with
  | nil =>
      intro st h
      simp [dashRun, List.take_of_length_le h]
  | cons e rest ih =>
      intro st h
      have hpe : alertPolicy e.2 := hpol e (List.mem_cons_self e rest)
      have hrest : ∀ p ∈ rest, alertPolicy p.2 := fun p hp =>
        hpol p (List.mem_cons_of_mem e hp)
      have hstep :
          (dashStep st (DashOp.live e.1 e.2)).alerts
            = mkAlert e.1 e.2 :: st.alerts.take 19 := by
        simp [dashStep, handleTransactionUpdate, hpe]
      have hlen : (dashStep st (DashOp.live e.1 e.2)).alerts.length ≤ 20 := by
        rw [hstep]
        simp [List.length_take]
      calc
        (dashRun st ((e :: rest).map fun p => DashOp.live p.1 p.2)).alerts
            = (dashRun (dashStep st (DashOp.live e.1 e.2))
                (rest.map fun p => DashOp.live p.1 p.2)).alerts := by
              simp [dashRun]
        _ = ((rest.map fun p => mkAlert p.1 p.2).reverse
              ++ (dashStep st (DashOp.live e.1 e.2)).alerts).take 20 :=
              ih hrest _ hlen
        _ = ((rest.map fun p => mkAlert p.1 p.2).reverse
              ++ ((mkAlert e.1 e.2 :: st.alerts).take 20)).take 20 := by
              rw [hstep]; rfl
        _ = ((rest.map fun p => mkAlert p.1 p.2).reverse
              ++ (mkAlert e.1 e.2 :: st.alerts)).take 20 :=
              take_append_take_eq _ _ 20
        _ = (((e :: rest).map fun p => mkAlert p.1 p.2).reverse
              ++ st.alerts).take 20 := by
              simp

/-- One dashboard operation never pushes the alert list beyond 20 entries
if it was within the cap before. -/
theorem alerts_cap_step (st : DashboardState) (op : DashOp)
    (h : st.alerts.length ≤ 20) : (dashStep st op).alerts.length ≤ 20 := by
  cases op with
  | live now t =>
      by_cases hp : alertPolicy t <;>
        simp [dashStep, handleTransactionUpdate, hp, List.length_take] <;>
        omega
  | refresh data => simpa [dashStep, loadDashboardData] using h
  | dismiss i =>
      have hf : (dismissAlert st.alerts i).length ≤ st.alerts.length :=
        (List.filter_sublist _).length_le
      exact le_trans (by simpa [dashStep] using hf) h

/-- The cap of 20 alerts is preserved by any run of operations. -/
theorem alerts_cap_run (ops : List DashOp) :
    ∀ st : DashboardState, st.alerts.length ≤ 20 →
      (dashRun st ops).alerts.length ≤ 20 := by
  induction ops with
  | nil => intro st h; exact h
  | cons op rest ih =>
      intro st h
      exact ih _ (alerts_cap_step st op h)

/-- C3: from the empty alert list, every sequence of live events, refreshes
and dismissals keeps the alert list within 20 entries; after 25 sequential
alert-triggering events the list is exactly the 20 most recent alerts
(most recent first), has length 20, and none of the 5 oldest alerts is
present (for pairwise-distinct alerts). -/
theorem alerts_cap_and_eviction :
    (∀ ops : List DashOp,
      (dashRun initialDashboardState ops).alerts.length ≤ 20) ∧
    (∀ evs : List (ℤ × Transaction), evs.length = 25 →
      (∀ p ∈ evs, alertPolicy p.2) →
      (dashRun initialDashboardState
          (evs.map fun p => DashOp.live p.1 p.2)).alerts
        = (evs.map fun p => mkAlert p.1 p.2).reverse.take 20 ∧
      (dashRun initialDashboardState
          (evs.map fun p => DashOp.live p.1 p.2)).alerts.length = 20 ∧
      ((evs.map fun p => mkAlert p.1 p.2).Nodup →
        ∀ a ∈ (evs.map fun p => mkAlert p.1 p.2).take 5,
          a ∉ (dashRun initialDashboardState
            (evs.map fun p => DashOp.live p.1 p.2)).alerts)) := by
  constructor
  · intro ops
    exact alerts_cap_run ops initialDashboardState (by simp [initialDashboardState])
  · intro evs hlen hpol
    have hrun :
        (dashRun initialDashboardState
            (evs.map fun p => DashOp.live p.1 p.2)).alerts
          = (evs.map fun p => mkAlert p.1 p.2).reverse.take 20 := by
      have h := dashRun_live_alerts evs hpol initialDashboardState
        (by simp [initialDashboardState])
      simpa [initialDashboardState] using h
    refine ⟨hrun, ?_, ?_⟩
    · rw [hrun]
      simp [List.length_take, hlen]
    · intro hnd a ha hfinal
      rw [hrun] at hfinal
      have hmaplen : (evs.map fun p => mkAlert p.1 p.2).length = 25 := by
        simp [hlen]
      have hdrop :
          (evs.map fun p => mkAlert p.1 p.2).reverse.take 20
            = ((evs.map fun p => mkAlert p.1 p.2).drop 5).reverse := by
        rw [List.take_reverse]
        rw [hmaplen]
      rw [hdrop, List.mem_reverse] at hfinal
      have hdisj :
          ((evs.map fun p => mkAlert p.1 p.2).take 5).Disjoint
            ((evs.map fun p => mkAlert p.1 p.2).drop 5) := by
        apply List.disjoint_of_nodup_append
        rw [List.take_append_drop]
        exact hnd
      exact hdisj ha hfinal

/-- Twenty-five alert-triggering block events with distinct clock values. -/
def witnessEvents : List (ℤ × Transaction) :=
  (List.range 25).map fun (k : ℕ) => ((k : ℤ), blockTransaction)

/-- Witness for alerts_cap_and_eviction: after the 25 concrete block
events the alert list has exactly 20 entries and the very first alert
(id 0) has been evicted. -/
theorem alerts_cap_and_eviction_witness :
    (dashRun initialDashboardState
        (witnessEvents.map fun p => DashOp.live p.1 p.2)).alerts.length = 20 ∧
    mkAlert 0 blockTransaction ∉
      (dashRun initialDashboardState
        (witnessEvents.map fun p => DashOp.live p.1 p.2)).alerts := by
  have h := alerts_cap_and_eviction.2 witnessEvents
    (by unfold witnessEvents; rw [List.length_map, List.length_range])
    (by
      intro p hp
      simp only [witnessEvents, List.mem_map, List.mem_range] at hp
      obtain ⟨k, -, rfl⟩ := hp
      exact Or.inl rfl)
  have hmap :
      (witnessEvents.map fun p => mkAlert p.1 p.2)
        = (List.range 25).map fun (k : ℕ) => mkAlert (k : ℤ) blockTransaction := by
    unfold witnessEvents
    rw [List.map_map]
    rfl
  have hinj :
      Function.Injective fun k : ℕ => mkAlert (k : ℤ) blockTransaction := by
    intro a b hab
    have hid := congrArg Alert.id hab
    simpa [mkAlert] using hid
  have hnd : (witnessEvents.map fun p => mkAlert p.1 p.2).Nodup := by
    rw [hmap]
    exact (List.nodup_range 25).map hinj
  have hmem :
      mkAlert 0 blockTransaction
        ∈ (witnessEvents.map fun p => mkAlert p.1 p.2).take 5 := by
    rw [hmap, ← List.map_take, List.take_range]
    exact List.mem_map.mpr ⟨0, List.mem_range.mpr (by norm_num), by simp⟩
  exact ⟨h.2.1, h.2.2 hnd (mkAlert 0 blockTransaction) hmem⟩

/-- A hotspot whose average risk score is exactly 0. -/
def zeroRiskHotspot : Hotspot :=
  { lat := .num 40
    lng := .num (-74)
    city := "New York"
    country := "US"
    fraud_count := 3
    avg_risk_score := 0 }

/-- A hotspot with a nonzero average risk score below 1. -/
def lowRiskHotspot : Hotspot :=
  { zeroRiskHotspot with city := "Boston", avg_risk_score := 3/10 }

/-- C4 counterexample: for the hotspot with average risk score 0 the
derived intensity is 1/2 (the JavaScript default `|| 0.5` fires on the
falsy value 0), not min(0, 1.0) = 0 as claimed. -/
theorem heat_intensity_zero_cex :
    heatIntensity zeroRiskHotspot ≠ min zeroRiskHotspot.avg_risk_score 1 := by
  norm_num [heatIntensity, jsOrQ, zeroRiskHotspot]

/-- C4 amended: the derived intensity is min(avg_risk_score, 1.0) whenever
avg_risk_score is nonzero, but an aggregate with avg_risk_score = 0 gets
the fallback value 0.5; the derived radius is max(intensity * 50, 10). -/
theorem heat_intensity_and_radius (p : Hotspot) :
    (p.avg_risk_score ≠ 0 → heatIntensity p = min p.avg_risk_score 1) ∧
    (p.avg_risk_score = 0 → heatIntensity p = 1/2) ∧
    heatRadius (heatIntensity p) = max (heatIntensity p * 50) 10 := by
  refine ⟨fun h => ?_, fun h => ?_, rfl⟩
  · simp [heatIntensity, jsOrQ, h]
  · rw [heatIntensity, jsOrQ, if_pos h]
    norm_num

/-- Witness for heat_intensity_and_radius at two concrete hotspots, one
with risk 3/10 and one with risk 0. -/
theorem heat_intensity_and_radius_witness :
    heatIntensity lowRiskHotspot = 3/10 ∧ heatIntensity zeroRiskHotspot = 1/2 := by
  constructor
  · have h := (heat_intensity_and_radius lowRiskHotspot).1
      (by norm_num [lowRiskHotspot, zeroRiskHotspot])
    rw [h]
    norm_num [lowRiskHotspot, zeroRiskHotspot]
  · exact (heat_intensity_and_radius zeroRiskHotspot).2.1 rfl

/-- The fraud statistics of the worked example in the claim. -/
def exampleStats : FraudStats :=
  { total_transactions := 100
    flagged_transactions := 10
    blocked_transactions := 5 }

/-- Fraud statistics whose exact rate 100/3 is not representable with one
decimal place. -/
def thirdStats : FraudStats :=
  { total_transactions := 3
    flagged_transactions := 1
    blocked_transactions := 0 }

/-- Fraud statistics with no transactions at all. -/
def zeroStats : FraudStats :=
  { total_transactions := 0
    flagged_transactions := 2
    blocked_transactions := 1 }

/-- C5 counterexample: with total 3 and one flagged transaction the code
computes 33.3 (toFixed(1) rounding), not the exact quotient 100/3 the
claim states. -/
theorem fraud_rate_exact_cex :
    calculateFraudRate thirdStats
      ≠ (((thirdStats.flagged_transactions : ℚ)
          + thirdStats.blocked_transactions) /
            thirdStats.total_transactions) * 100 := by
  norm_num [calculateFraudRate, jsToFixed1, thirdStats, round_eq]

/-- C5 amended: the fraud rate is 0 when the total is 0 (no exception) and
otherwise the exact percentage rounded to the nearest tenth (one decimal
place, ties up); for stats {total 100, flagged 10, blocked 5} it is
exactly 15. -/
theorem fraud_rate_guard_and_rounding (s : FraudStats) :
    (s.total_transactions = 0 → calculateFraudRate s = 0) ∧
    (s.total_transactions ≠ 0 → calculateFraudRate s =
      (round ((((s.flagged_transactions : ℚ) + s.blocked_transactions) /
        s.total_transactions) * 1000) : ℤ) / 10) ∧
    calculateFraudRate exampleStats = 15 := by
  refine ⟨fun h => by simp [calculateFraudRate, h], fun h => ?_, ?_⟩
  · have harg :
        ((((s.flagged_transactions : ℚ) + s.blocked_transactions) /
          s.total_transactions) * 100) * 10
          = (((s.flagged_transactions : ℚ) + s.blocked_transactions) /
              s.total_transactions) * 1000 := by ring
    simp only [calculateFraudRate, if_neg h, jsToFixed1]
    rw [harg]
  · norm_num [calculateFraudRate, jsToFixed1, exampleStats, round_eq]

/-- Witness for fraud_rate_guard_and_rounding: zero-total stats give rate
0, and stats {total 3, flagged 1, blocked 0} give exactly 33.3. -/
theorem fraud_rate_guard_witness :
    calculateFraudRate zeroStats = 0 ∧ calculateFraudRate thirdStats = 333/10 := by
  constructor
  · exact (fraud_rate_guard_and_rounding zeroStats).1 rfl
  · have h := (fraud_rate_guard_and_rounding thirdStats).2.1
      (by norm_num [thirdStats])
    rw [h]
    norm_num [thirdStats, round_eq]

/-- A concrete alert with identifier 5. -/
def alertA : Alert :=
  { id := 5
    timestamp := "09:00:00"
    message := "BLOCK: Transaction TX1"
    type := "block"
    transaction_id := "TX1" }

/-- A second alert sharing identifier 5 with alertA. -/
def alertB : Alert :=
  { alertA with message := "BLOCK: Transaction TX2", transaction_id := "TX2" }

/-- A concrete alert with identifier 7. -/
def alertC : Alert :=
  { id := 7
    timestamp := "09:00:01"
    message := "FLAG: Transaction TX3"
    type := "flag"
    transaction_id := "TX3" }

/-- C6 counterexample: on a list holding two alerts with identifier 5,
dismissing 5 removes both of them (the result has length 1, not 2), so a
dismissal does not always remove exactly one entry. -/
theorem dismiss_duplicate_cex :
    ¬ ((dismissAlert [alertA, alertB, alertC] 5).length + 1
        = ([alertA, alertB, alertC] : List Alert).length) := by
  norm_num [dismissAlert, alertA, alertB, alertC, List.filter]

/-- C6 amended: dismissing identifier X removes precisely the entries whose
identifier equals X, keeps every other entry, preserves the relative order
of the rest (the result is a sublist), and removes exactly one entry
whenever X occurs exactly once in the list. -/
theorem dismiss_removes_matching (l : List Alert) (X : ℤ) :
    (dismissAlert l X).Sublist l ∧
    (∀ a ∈ dismissAlert l X, a.id ≠ X) ∧
    (∀ a ∈ l, a.id ≠ X → a ∈ dismissAlert l X) ∧
    ((l.filter fun a => a.id = X).length = 1 →
      (dismissAlert l X).length + 1 = l.length) := by
  refine ⟨List.filter_sublist l, ?_, ?_, ?_⟩
  · intro a ha
    have hmem := List.of_mem_filter ha
    simpa using hmem
  · intro a ha hne
    exact List.mem_filter.mpr ⟨ha, by simpa using hne⟩
  · intro hone
    have hsplit :
        l.length = (l.filter fun a => a.id = X).length
          + (l.filter fun a => !(decide (a.id = X))).length :=
      List.length_eq_length_filter_add _
    have hcompl : dismissAlert l X = l.filter fun a => !(decide (a.id = X)) := by
      unfold dismissAlert
      congr 1
      funext a
      simp [decide_not]
    rw [hcompl]
    omega

/-- Witness for dismiss_removes_matching: dismissing 5 from a list where 5
occurs once removes exactly one entry and keeps the alert with id 7. -/
theorem dismiss_removes_matching_witness :
    (dismissAlert [alertA, alertC] 5).length + 1
        = ([alertA, alertC] : List Alert).length ∧
    alertC ∈ dismissAlert [alertA, alertC] 5 := by
  constructor
  · exact (dismiss_removes_matching [alertA, alertC] 5).2.2.2
      (by norm_num [alertA, alertC, List.filter])
  · exact (dismiss_removes_matching [alertA, alertC] 5).2.2.1 alertC
      (by simp) (by norm_num [alertC])

/-- C7: every stored alert type falls into one of the three classification
buckets block / flag / other; for a TransactionEvent with action "approve"
and risk score above 0.7 an alert is created and its classification is the
default (other) bucket. -/
theorem alert_classification_buckets (now : ℤ) (st : DashboardState)
    (t : Transaction) (hact : t.action = "approve")
    (hrisk : t.risk_score > 7/10) :
    (∀ a : Alert, classifyAlertType a.type = AlertClass.block ∨
      classifyAlertType a.type = AlertClass.flag ∨
      classifyAlertType a.type = AlertClass.other) ∧
    (handleTransactionUpdate now st t).alerts
        = mkAlert now t :: st.alerts.take 19 ∧
    classifyAlertType (mkAlert now t).type = AlertClass.other := by
  refine ⟨?_, ?_, ?_⟩
  · intro a
    unfold classifyAlertType
    split_ifs <;> simp
  · have hp : alertPolicy t := Or.inr hrisk
    simp [handleTransactionUpdate, hp]
  · simp [classifyAlertType, mkAlert, hact]

/-- Witness for alert_classification_buckets: the concrete approved
transaction with risk 0.8 creates one alert classified in the other
bucket. -/
theorem alert_classification_witness :
    (handleTransactionUpdate 1000 initialDashboardState
        approveHighRiskTransaction).alerts
      = [mkAlert 1000 approveHighRiskTransaction] ∧
    classifyAlertType (mkAlert 1000 approveHighRiskTransaction).type
      = AlertClass.other := by
  have h := alert_classification_buckets 1000 initialDashboardState
    approveHighRiskTransaction rfl
    (by norm_num [approveHighRiskTransaction, approveTransaction])
  exact ⟨by simpa [initialDashboardState] using h.2.1, h.2.2⟩

/-- C8: the two color ladders match the specified thresholds exactly, with
inclusive lower boundaries, for every rational input. -/
theorem color_ladders (x : ℚ) :
    (8/10 ≤ x → getHeatColor x = "#FF0000") ∧
    (6/10 ≤ x → x < 8/10 → getHeatColor x = "#FF4500") ∧
    (4/10 ≤ x → x < 6/10 → getHeatColor x = "#FF8C00") ∧
    (2/10 ≤ x → x < 4/10 → getHeatColor x = "#FFD700") ∧
    (x < 2/10 → getHeatColor x = "#FFFF00") ∧
    (8/10 ≤ x → getRiskColor x = "#F44336") ∧
    (5/10 ≤ x → x < 8/10 → getRiskColor x = "#FF9800") ∧
    (3/10 ≤ x → x < 5/10 → getRiskColor x = "#FFC107") ∧
    (x < 3/10 → getRiskColor x = "#4CAF50") := by
  refine ⟨?_, ?_, ?_, ?_, ?_, ?_, ?_, ?_, ?_⟩ <;>
    intros <;> simp only [getHeatColor, getRiskColor] <;> split_ifs <;>
    first | rfl | (exfalso; linarith)

/-- Witness for color_ladders at the boundary and interior points named in
the spec: 0.85 and the inclusive boundary 0.8 are red, 0.15 is yellow, and
risk 0.6 is orange. -/
theorem color_ladders_witness :
    getHeatColor (85/100) = "#FF0000" ∧ getHeatColor (8/10) = "#FF0000" ∧
    getHeatColor (15/100) = "#FFFF00" ∧ getRiskColor (6/10) = "#FF9800" :=
  ⟨(color_ladders (85/100)).1 (by norm_num),
    (color_ladders (8/10)).1 (by norm_num),
    (color_ladders (15/100)).2.2.2.2.1 (by norm_num),
    (color_ladders (6/10)).2.2.2.2.2.2.1 (by norm_num) (by norm_num)⟩

/-- The coordinate test succeeds exactly when the transaction has a
location whose lat and lng are both finite numbers. -/
theorem hasValidCoordinates_iff (t : Transaction) :
    hasValidCoordinates t = true ↔
      ∃ loc, t.location = some loc ∧ (∃ a, loc.lat = JSVal.num a) ∧
        ∃ b, loc.lng = JSVal.num b := by
  cases hloc : t.location with
  | none => simp [hasValidCoordinates, hloc]
  | some loc =>
      rcases loc with ⟨lat, lng, city, country⟩
      cases lat <;> cases lng <;>
        simp [hasValidCoordinates, hloc, JSVal.isNumberType, JSVal.isNaNVal]

/-- C9: the Geo Risk Renderer keeps exactly the transactions whose location
has numeric, non-NaN lat and lng; in particular a transaction whose lat is
NaN (or missing, or non-numeric) is excluded. -/
theorem valid_transactions_exact (ts : List Transaction) (t : Transaction) :
    (t ∈ validTransactions ts ↔
      t ∈ ts ∧ ∃ loc, t.location = some loc ∧ (∃ a, loc.lat = JSVal.num a) ∧
        ∃ b, loc.lng = JSVal.num b) ∧
    (∀ loc, t.location = some loc → loc.lat = JSVal.nan →
      t ∉ validTransactions ts) := by
  have hmem : t ∈ validTransactions ts ↔
      t ∈ ts ∧ ∃ loc, t.location = some loc ∧ (∃ a, loc.lat = JSVal.num a) ∧
        ∃ b, loc.lng = JSVal.num b := by
    rw [validTransactions, List.mem_filter, hasValidCoordinates_iff]
  refine ⟨hmem, ?_⟩
  intro loc hloc hnan hin
  obtain ⟨-, loc', hloc', ⟨a, ha⟩, -⟩ := hmem.mp hin
  rw [hloc] at hloc'
  cases hloc'
  rw [hnan] at ha
  cases ha

/-- A transaction whose latitude is NaN. -/
def nanTransaction : Transaction :=
  { approveTransaction with
      transaction_id := "TX400"
      location := some { lat := .nan, lng := .num 10, city := "Nowhere", country := "ZZ" } }

/-- Witness for valid_transactions_exact: the NaN-latitude transaction is
excluded from the rendered set. -/
theorem valid_transactions_witness :
    nanTransaction ∉ validTransactions [blockTransaction, nanTransaction] :=
  (valid_transactions_exact [blockTransaction, nanTransaction] nanTransaction).2
    { lat := .nan, lng := .num 10, city := "Nowhere", country := "ZZ" } rfl rfl

/-- C10: two alert-triggering events processed at the same Date.now()
value yield two alerts with equal identifiers, both sitting at the front of
the alert list, and a single dismissal of that identifier removes both
(leaving only the old alerts that survive the truncations). -/
theorem same_millisecond_alert_ids (now : ℤ) (st : DashboardState)
    (t1 t2 : Transaction) (h1 : alertPolicy t1) (h2 : alertPolicy t2)
    (hfresh : ∀ a ∈ st.alerts, a.id ≠ now) :
    (mkAlert now t1).id = (mkAlert now t2).id ∧
    (handleTransactionUpdate now (handleTransactionUpdate now st t1) t2).alerts
        = mkAlert now t2 :: mkAlert now t1 :: st.alerts.take 18 ∧
    dismissAlert
      (handleTransactionUpdate now (handleTransactionUpdate now st t1) t2).alerts
      now = st.alerts.take 18 := by
  have hst1 : (handleTransactionUpdate now st t1).alerts
      = mkAlert now t1 :: st.alerts.take 19 := by
    simp [handleTransactionUpdate, h1]
  have hst2 :
      (handleTransactionUpdate now (handleTransactionUpdate now st t1) t2).alerts
        = mkAlert now t2 :: mkAlert now t1 :: st.alerts.take 18 := by
    have h2alerts :
        (handleTransactionUpdate now (handleTransactionUpdate now st t1) t2).alerts
          = mkAlert now t2 :: (handleTransactionUpdate now st t1).alerts.take 19 := by
      simp [handleTransactionUpdate, h2]
    rw [h2alerts, hst1, show (19:ℕ) = 18 + 1 from rfl, List.take_succ_cons,
      List.take_take]
    norm_num
  refine ⟨rfl, hst2, ?_⟩
  rw [hst2]
  unfold dismissAlert
  rw [List.filter_cons_of_neg (by simp [mkAlert]),
    List.filter_cons_of_neg (by simp [mkAlert])]
  exact List.filter_eq_self.mpr fun a ha => by
    simpa using hfresh a (List.take_subset 18 st.alerts ha)

/-- Witness for same_millisecond_alert_ids: a blocked transaction and a
high-risk approved transaction processed at clock value 1000 get the same
alert id, and one dismissal of 1000 empties the list. -/
theorem same_millisecond_alert_ids_witness :
    (mkAlert 1000 blockTransaction).id
        = (mkAlert 1000 approveHighRiskTransaction).id ∧
    dismissAlert
      (handleTransactionUpdate 1000
        (handleTransactionUpdate 1000 initialDashboardState blockTransaction)
        approveHighRiskTransaction).alerts 1000 = [] := by
  have h := same_millisecond_alert_ids 1000 initialDashboardState
    blockTransaction approveHighRiskTransaction (Or.inl rfl)
    (Or.inr (by norm_num [approveHighRiskTransaction, approveTransaction]))
    (by intro a ha; simp [initialDashboardState] at ha)
  exact ⟨h.1, by simpa [initialDashboardState] using h.2.2⟩

end FraudDashboard
